import Mathlib

/-!
Verification of the "remeber" life-manager application (personal finance +
to-do tracking) against its specification.

The development shallowly embeds:
  * the record model shared by the frontend and the spreadsheet backend
    (`Transaction`, `Todo`, `Category`, `AppData`, inferred from usage in
    `src/components` and the sheet schemas declared in
    `src/backend_google_script.gs`),
  * the local-storage branch of every `ApiService` method in
    `src/services/api.ts` / `src/unnamed/part_000` (browser storage is one
    optional JSON blob, modelled as `Option AppData`),
  * the remote branch of every `ApiService` method (the outcome of the
    `fetch` + `response.json()` round trip is a `NetResult`; an uncaught
    exception is `Except.error`),
  * the Google-Apps-Script backend `src/backend_google_script.gs`
    (spreadsheets are lists of rows of `Cell` values; the header rows are
    kept implicit, matching the `i = 1` start of every loop in the script),
  * the month-summary computation of `src/components/ExpenseView.tsx` and
    the currency-conversion logic of its `handleSubmit`.
-/

namespace Remeber

/-! ### Record model (src/types.ts, inferred from usage and spec section 3) -/

/-- Transaction type: `income` or `expense` (spec section 3; serialized to the
strings "income" / "expense" in the sheet). -/
inductive TransactionType where
  | income
  | expense
deriving DecidableEq, Repr

/-- Transaction record: id, date (YYYY-MM-DD string), type, category
reference, amount, free-text note.  Amounts are JS numbers; they are
modelled as rationals. -/
structure Transaction where
  id : String
  date : String
  type : TransactionType
  categoryId : String
  amount : ℚ
  note : String
deriving DecidableEq, Repr

/-- Todo record: id, text, completion flag, creation timestamp, optional
target date (used by the schedule view; the backend sheet has no column
for it). -/
structure Todo where
  id : String
  text : String
  isCompleted : Bool
  createdAt : String
  targetDate : Option String
deriving DecidableEq, Repr

/-- Category record: id, label, icon key, color. -/
structure Category where
  id : String
  label : String
  iconKey : String
  color : String
deriving DecidableEq, Repr

/-- The single JSON blob holding all records (`AppData` in the frontend). -/
structure AppData where
  transactions : List Transaction
  todos : List Todo
  categories : List Category
deriving DecidableEq, Repr

/-- Response envelope `{ success, data?, message? }` used by the data service
and the remote endpoint. -/
structure ApiResponse (α : Type) where
  success : Bool
  data : Option α
  message : Option String
deriving DecidableEq, Repr

/-! ### Constants (src/constants.ts) -/

/-- DEFAULT_CATEGORIES from `src/constants.ts`. -/
def DEFAULT_CATEGORIES : List Category :=
  [ ⟨"cat_1", "飲食", "Utensils", "#e8d5d5"⟩
  , ⟨"cat_2", "交通", "Bus", "#8fa3ad"⟩
  , ⟨"cat_3", "購物", "ShoppingBag", "#8da399"⟩
  , ⟨"cat_4", "娛樂", "Film", "#f0c4c4"⟩
  , ⟨"cat_5", "帳單", "Zap", "#b8c5d6"⟩
  , ⟨"cat_6", "醫療", "Heart", "#d6b8b8"⟩ ]

/-! ### Local mode (the `else` branches of ApiService, src/services/api.ts)

Browser storage holds at most one JSON blob under `lifemanager_local_data`;
it is modelled as `Option AppData` (JSON round-tripping of the record
structures is faithful and kept implicit).  Each operation returns the new
storage content together with its `ApiResponse`. -/

/-- The initial dataset written by `getLocalData` when no blob exists. -/
def initialData : AppData := ⟨[], [], DEFAULT_CATEGORIES⟩

/-- ApiService.getLocalData: read the blob; when absent, write and return
the initial dataset.  Returns (parsed data, storage after the call). -/
def getLocalData : Option AppData → AppData × Option AppData
  | none => (initialData, some initialData)
  | some d => (d, some d)

/-- Local branch of ApiService.fetchData: `{ success: true, data: getLocalData() }`. -/
def fetchDataLocal (store : Option AppData) : Option AppData × ApiResponse AppData :=
  let p := getLocalData store
  (p.2, ⟨true, some p.1, none⟩)

/-- Local branch of ApiService.addTransaction: `unshift` onto the
transactions array, save, return the transaction. -/
def addTransactionLocal (store : Option AppData) (transaction : Transaction) :
    Option AppData × ApiResponse Transaction :=
  let d := (getLocalData store).1
  (some { d with transactions := transaction :: d.transactions }, ⟨true, some transaction, none⟩)

/-- Local branch of ApiService.deleteTransaction:
`transactions.filter(t => t.id !== id)`. -/
def deleteTransactionLocal (store : Option AppData) (id : String) :
    Option AppData × ApiResponse Unit :=
  let d := (getLocalData store).1
  (some { d with transactions := d.transactions.filter (fun t => t.id ≠ id) }, ⟨true, none, none⟩)

/-- Local branch of ApiService.addTodo: `unshift` onto the todos array. -/
def addTodoLocal (store : Option AppData) (todo : Todo) :
    Option AppData × ApiResponse Todo :=
  let d := (getLocalData store).1
  (some { d with todos := todo :: d.todos }, ⟨true, some todo, none⟩)

/-- Embedding of `findIndex` followed by `todos[index].isCompleted = isCompleted`:
the first todo whose id matches is updated, every other element is kept, and
the list is unchanged when no id matches. -/
def setCompletedFirst : List Todo → String → Bool → List Todo
  | [], _, _ => []
  | t :: ts, id, b =>
      if t.id = id then { t with isCompleted := b } :: ts
      else t :: setCompletedFirst ts id b

/-- Local branch of ApiService.toggleTodo.  When `findIndex` misses,
`saveLocalData` is skipped, but `getLocalData` has already materialised the
blob, so storage holds the unmodified dataset either way. -/
def toggleTodoLocal (store : Option AppData) (id : String) (isCompleted : Bool) :
    Option AppData × ApiResponse Unit :=
  let d := (getLocalData store).1
  (some { d with todos := setCompletedFirst d.todos id isCompleted }, ⟨true, none, none⟩)

/-- Local branch of ApiService.deleteTodo: `todos.filter(t => t.id !== id)`. -/
def deleteTodoLocal (store : Option AppData) (id : String) :
    Option AppData × ApiResponse Unit :=
  let d := (getLocalData store).1
  (some { d with todos := d.todos.filter (fun t => t.id ≠ id) }, ⟨true, none, none⟩)

/-- Local branch of ApiService.saveCategories: replace the categories array. -/
def saveCategoriesLocal (store : Option AppData) (categories : List Category) :
    Option AppData × ApiResponse Unit :=
  let d := (getLocalData store).1
  (some { d with categories := categories }, ⟨true, none, none⟩)

/-- Local branch of ApiService.reorderTodos (src/unnamed/part_000):
`data.todos = todos; saveLocalData(data)`. -/
def reorderTodosLocal (store : Option AppData) (todos : List Todo) :
    Option AppData × ApiResponse Unit :=
  let d := (getLocalData store).1
  (some { d with todos := todos }, ⟨true, none, none⟩)

/-! ### Remote mode, client side (the `if (url)` branches of ApiService)

The outcome of `fetch` + `await response.json()` is abstracted as a
`NetResult`: either the parsed JSON response, or a failure (rejected fetch
or a JSON-parse throw) carrying the exception's message.  A value the client
returns is `Except.ok`; an exception that escapes the method is
`Except.error`. -/

/-- Outcome of one HTTP round trip as observed by the client after
`await response.json()`. -/
inductive NetResult (α : Type) where
  | ok (json : α)
  | netErr (e : String)
deriving DecidableEq, Repr

/-- Remote branch of ApiService.fetchData: the whole round trip is inside
`try`; a non-success response is thrown and caught; every failure path
returns `{ success: false, message: 'Failed to fetch from cloud.' }`. -/
def fetchDataRemote (net : NetResult (ApiResponse AppData)) :
    Except String (ApiResponse AppData) :=
  match net with
  | .ok json =>
      if json.success then .ok json
      else .ok ⟨false, none, some "Failed to fetch from cloud."⟩
  | .netErr _ => .ok ⟨false, none, some "Failed to fetch from cloud."⟩

/-- Remote branch of ApiService.addTransaction: `return await response.json()`
with no surrounding try/catch, so a transport failure escapes as an
exception. -/
def addTransactionRemote (net : NetResult (ApiResponse Transaction)) :
    Except String (ApiResponse Transaction) :=
  match net with
  | .ok json => .ok json
  | .netErr e => .error e

/-- Remote branch of ApiService.deleteTransaction (no try/catch). -/
def deleteTransactionRemote (net : NetResult (ApiResponse Unit)) :
    Except String (ApiResponse Unit) :=
  match net with
  | .ok json => .ok json
  | .netErr e => .error e

/-- Remote branch of ApiService.addTodo (no try/catch). -/
def addTodoRemote (net : NetResult (ApiResponse Todo)) :
    Except String (ApiResponse Todo) :=
  match net with
  | .ok json => .ok json
  | .netErr e => .error e

/-- Remote branch of ApiService.toggleTodo (no try/catch). -/
def toggleTodoRemote (net : NetResult (ApiResponse Unit)) :
    Except String (ApiResponse Unit) :=
  match net with
  | .ok json => .ok json
  | .netErr e => .error e

/-- Remote branch of ApiService.deleteTodo (no try/catch). -/
def deleteTodoRemote (net : NetResult (ApiResponse Unit)) :
    Except String (ApiResponse Unit) :=
  match net with
  | .ok json => .ok json
  | .netErr e => .error e

/-- Remote branch of ApiService.reorderTodos (src/unnamed/part_000): the
round trip is inside `try`; a failure returns
`{ success: false, message: "Cloud reorder failed" }`. -/
def reorderTodosRemote (net : NetResult (ApiResponse Unit)) :
    Except String (ApiResponse Unit) :=
  match net with
  | .ok json => .ok json
  | .netErr _ => .ok ⟨false, none, some "Cloud reorder failed"⟩

/-! ### Remote endpoint (src/backend_google_script.gs)

Sheet cells are strings, numbers or booleans.  A sheet is its list of data
rows; the fixed header rows (`["id","date","type","categoryId","amount","note"]`
and `["id","text","isCompleted","createdAt"]` from `setup`) stay implicit,
matching the `for (var i = 1; ...)` loops that skip row 0. -/

/-- A spreadsheet cell value. -/
inductive Cell where
  | str (s : String)
  | num (q : ℚ)
  | boo (b : Bool)
deriving DecidableEq, Repr

/-- JS `String(...)` on a cell value, as used for the id comparison
`String(data[i][0]) === String(id)`.  Ids written by this script are
`Cell.str` cells, where the conversion is the identity. -/
def cellToString : Cell → String
  | .str s => s
  | .num q => toString q
  | .boo true => "true"
  | .boo false => "false"

/-- JS `Number(...)` on a cell value, as used by
`txData.forEach(function(t) { t.amount = Number(t.amount); })`.  Amount
cells written by `addTransaction` are `Cell.num` cells, where the
conversion is the identity; the string-parsing case never arises for rows
this script writes and is elided to 0. -/
def cellToNumber : Cell → ℚ
  | .num q => q
  | .boo true => 1
  | .boo false => 0
  | .str _ => 0

/-- The conversion `t.isCompleted === 'TRUE' || t.isCompleted === true`
applied by `getAllData` to the third todo column. -/
def cellToCompleted (c : Cell) : Bool :=
  c == Cell.str "TRUE" || c == Cell.boo true

/-- Serialization of a `TransactionType` into the JSON string the client
sends and the sheet stores. -/
def typeToString : TransactionType → String
  | .income => "income"
  | .expense => "expense"

/-- Reading the type column back.  The sheet stores whatever string the
client sent; rows written by this script hold "income" or "expense", so the
fallback branch is unreachable for script-written rows. -/
def stringToType (s : String) : TransactionType :=
  if s = "income" then .income else .expense

/-- Backend `addTransaction`: `sheet.appendRow([data.id, data.date,
data.type, data.categoryId, data.amount, data.note])`. -/
def txToRow (t : Transaction) : List Cell :=
  [.str t.id, .str t.date, .str (typeToString t.type), .str t.categoryId,
   .num t.amount, .str t.note]

/-- Backend `addTodo`: `sheet.appendRow([data.id, data.text,
data.isCompleted, data.createdAt])`. -/
def todoToRow (t : Todo) : List Cell :=
  [.str t.id, .str t.text, .boo t.isCompleted, .str t.createdAt]

/-- `sheetToObjects` on a Transactions row, composed with the `Number`
conversion `getAllData` applies to the amount column. -/
def txOfRow (r : List Cell) : Transaction :=
  { id := cellToString (r.getD 0 (.str ""))
  , date := cellToString (r.getD 1 (.str ""))
  , type := stringToType (cellToString (r.getD 2 (.str "")))
  , categoryId := cellToString (r.getD 3 (.str ""))
  , amount := cellToNumber (r.getD 4 (.str ""))
  , note := cellToString (r.getD 5 (.str "")) }

/-- `sheetToObjects` on a Todos row, composed with the boolean conversion
`getAllData` applies.  The sheet has no targetDate column, so the fetched
object carries none. -/
def todoOfRow (r : List Cell) : Todo :=
  { id := cellToString (r.getD 0 (.str ""))
  , text := cellToString (r.getD 1 (.str ""))
  , isCompleted := cellToCompleted (r.getD 2 (.str ""))
  , createdAt := cellToString (r.getD 3 (.str ""))
  , targetDate := none }

/-- The spreadsheet's state: the data rows of the Transactions and Todos
sheets. -/
structure GasDb where
  txRows : List (List Cell)
  todoRows : List (List Cell)
deriving DecidableEq, Repr

/-- The static category list hard-coded in the backend's `getAllData`
(the same literals as DEFAULT_CATEGORIES in src/constants.ts). -/
def gasCategories : List Category :=
  [ ⟨"cat_1", "飲食", "Utensils", "#e8d5d5"⟩
  , ⟨"cat_2", "交通", "Bus", "#8fa3ad"⟩
  , ⟨"cat_3", "購物", "ShoppingBag", "#8da399"⟩
  , ⟨"cat_4", "娛樂", "Film", "#f0c4c4"⟩
  , ⟨"cat_5", "帳單", "Zap", "#b8c5d6"⟩
  , ⟨"cat_6", "醫療", "Heart", "#d6b8b8"⟩ ]

/-- Backend `getAllData`: read both sheets, convert, reverse the
transactions (newest first), attach the static categories. -/
def gasGetAllData (db : GasDb) : AppData :=
  { transactions := (db.txRows.map txOfRow).reverse
  , todos := db.todoRows.map todoOfRow
  , categories := gasCategories }

/-- The row key `String(data[i][0])` both backend loops compare against
`String(id)` (the identity on the string ids the client sends). -/
def rowId (r : List Cell) : String := cellToString (r.getD 0 (.str ""))

/-- Backend `toggleTodo` row loop: set column index 2 of the first row whose
id cell stringifies to the requested id; later rows are untouched
(`break`), and a miss changes nothing. -/
def setRowCompletedFirst : List (List Cell) → String → Bool → List (List Cell)
  | [], _, _ => []
  | r :: rs, id, b =>
      if rowId r = id then r.set 2 (.boo b) :: rs
      else r :: setRowCompletedFirst rs id b

/-- Backend `deleteRow` loop: delete the first row whose id cell stringifies
to the requested id; later rows are untouched (`break`). -/
def deleteRowFirst : List (List Cell) → String → List (List Cell)
  | [], _ => []
  | r :: rs, id =>
      if rowId r = id then rs
      else r :: deleteRowFirst rs id

/-- A request to the endpoint: the action string together with its payload,
as serialized by the client.  `reorderTodos` is the `REORDER_TODOS` action
that ApiService.reorderTodos sends. -/
inductive GasRequest where
  | getData
  | addTransaction (t : Transaction)
  | deleteTransaction (id : String)
  | addTodo (t : Todo)
  | toggleTodo (id : String) (isCompleted : Bool)
  | deleteTodo (id : String)
  | reorderTodos (todos : List Todo)
deriving DecidableEq, Repr

/-- Backend `handleRequest` dispatch.  The if/else-if chain recognises only
GET_DATA, ADD_TRANSACTION, DELETE_TRANSACTION, ADD_TODO, TOGGLE_TODO and
DELETE_TODO; any other action — including the REORDER_TODOS request the
client sends — falls through to
`{ success: false, message: "Unknown Action" }` with the sheets untouched. -/
def handleRequest : GasDb → GasRequest → GasDb × ApiResponse AppData
  | db, .getData => (db, ⟨true, some (gasGetAllData db), none⟩)
  | db, .addTransaction t =>
      ({ db with txRows := db.txRows ++ [txToRow t] }, ⟨true, none, none⟩)
  | db, .deleteTransaction id =>
      ({ db with txRows := deleteRowFirst db.txRows id }, ⟨true, none, none⟩)
  | db, .addTodo t =>
      ({ db with todoRows := db.todoRows ++ [todoToRow t] }, ⟨true, none, none⟩)
  | db, .toggleTodo id b =>
      ({ db with todoRows := setRowCompletedFirst db.todoRows id b }, ⟨true, none, none⟩)
  | db, .deleteTodo id =>
      ({ db with todoRows := deleteRowFirst db.todoRows id }, ⟨true, none, none⟩)
  | db, .reorderTodos _ => (db, ⟨false, none, some "Unknown Action"⟩)

/-! ### ExpenseView (src/components/ExpenseView.tsx) -/

/-- `currentMonthTransactions`: `transactions.filter(t => t.date.startsWith(selectedMonth))`. -/
def currentMonthTransactions (transactions : List Transaction) (selectedMonth : String) :
    List Transaction :=
  transactions.filter (fun t => t.date.startsWith selectedMonth)

/-- The dashboard summary `{ income, expense, balance }`. -/
structure MonthSummary where
  income : ℚ
  expense : ℚ
  balance : ℚ
deriving DecidableEq, Repr

/-- `summary`: income and expense are `filter` + `reduce((acc, t) => acc + t.amount, 0)`
over the month's transactions; balance is their difference. -/
def summary (transactions : List Transaction) (selectedMonth : String) : MonthSummary :=
  let cur := currentMonthTransactions transactions selectedMonth
  let income := (cur.filter (fun t => t.type = TransactionType.income)).foldl
    (fun acc t => acc + t.amount) 0
  let expense := (cur.filter (fun t => t.type = TransactionType.expense)).foldl
    (fun acc t => acc + t.amount) 0
  ⟨income, expense, income - expense⟩

/-- JS `Math.round`: nearest integer, halves toward positive infinity. -/
def mathRound (x : ℚ) : ℤ := ⌊x + 1 / 2⌋

/-- JS truthiness of the `number | null` returned by `getExchangeRate`, as
tested by `if (rate)` in `handleSubmit`: `null` and `0` are falsy. -/
def rateTruthy : Option ℚ → Bool
  | some r => r != 0
  | none => false

/-- The amount-conversion logic of `handleSubmit`: for a non-TWD currency,
a truthy looked-up rate stores `Math.round(originalAmount * rate)`; a null
rate (the only value `getExchangeRate` produces on failure, since it
catches its own exceptions), a zero rate, and the alert-only catch branch
all keep the original amount. -/
def convertedAmount (currency : String) (amount : ℚ) (rate : Option ℚ) : ℚ :=
  if currency = "TWD" then amount
  else if rateTruthy rate then (mathRound (amount * rate.getD 0) : ℚ)
  else amount

/-- The dataset a subsequent local read observes in the given storage
state (what `getLocalData` parses out of the blob). -/
def storedData (store : Option AppData) : AppData := (getLocalData store).1

/-! ### Helper lemmas -/

/-- The `reduce((acc, t) => acc + t.amount, 0)` accumulation is the sum of
the amounts. -/
theorem foldl_add_amount (l : List Transaction) (init : ℚ) :
    l.foldl (fun acc t => acc + t.amount) init = init + (l.map (fun t => t.amount)).sum := by
  induction l generalizing init with
  | nil => simp
  | cons t ts ih => simp [List.foldl_cons, ih, add_assoc]

/-- Updating the first matching todo twice with the same value is the same
as updating it once. -/
theorem setCompletedFirst_idem (l : List Todo) (id : String) (b : Bool) :
    setCompletedFirst (setCompletedFirst l id b) id b = setCompletedFirst l id b := by
  induction l with
  | nil => rfl
  | cons t ts ih =>
      by_cases h : t.id = id
      · simp [setCompletedFirst, h]
      · simp [setCompletedFirst, h, ih]

/-- When no todo has the requested id, the first-match update is the
identity. -/
theorem setCompletedFirst_of_not_mem (l : List Todo) (id : String) (b : Bool)
    (h : ∀ t ∈ l, t.id ≠ id) :
    setCompletedFirst l id b = l := by
  induction l with
  | nil => rfl
  | cons t ts ih =>
      have h1 : t.id ≠ id := h t (List.mem_cons_self t ts)
      simp [setCompletedFirst, h1, ih fun u hu => h u (List.mem_cons_of_mem t hu)]

/-- Writing the completion column (index 2) leaves the id cell (index 0)
unchanged. -/
theorem rowId_set_two (r : List Cell) (v : Cell) : rowId (r.set 2 v) = rowId r := by
  match r with
  | [] => rfl
  | a :: _ => rfl

/-- Updating the first matching sheet row twice with the same value is the
same as updating it once. -/
theorem setRowCompletedFirst_idem (l : List (List Cell)) (id : String) (b : Bool) :
    setRowCompletedFirst (setRowCompletedFirst l id b) id b =
      setRowCompletedFirst l id b := by
  induction l with
  | nil => rfl
  | cons r rs ih =>
      by_cases h : rowId r = id
      · simp [setRowCompletedFirst, h, rowId_set_two, List.set_set]
      · simp [setRowCompletedFirst, h, ih]

/-- When the sheet's id column has no duplicates, deleting the first
matching row is the same as filtering out every row with that id. -/
theorem deleteRowFirst_eq_filter (l : List (List Cell)) (id : String)
    (h : (l.map rowId).Nodup) :
    deleteRowFirst l id = l.filter (fun r => rowId r ≠ id) := by
  induction l with
  | nil => rfl
  | cons r rs ih =>
      simp only [List.map_cons, List.nodup_cons] at h
      by_cases hr : rowId r = id
      · have hrest : rs.filter (fun u => !decide (rowId u = id)) = rs := by
          refine List.filter_eq_self.mpr fun u hu => ?_
          have hmem : rowId u ∈ List.map rowId rs := List.mem_map_of_mem rowId hu
          have hne : rowId u ≠ id := by
            intro he
            rw [he, ← hr] at hmem
            exact h.1 hmem
          simpa using hne
        simp [deleteRowFirst, hr, List.filter_cons, hrest]
      · simp [deleteRowFirst, hr, List.filter_cons, ih h.2]

/-- A transaction survives the append-row / sheetToObjects round trip with
every field intact. -/
theorem txOfRow_txToRow (t : Transaction) : txOfRow (txToRow t) = t := by
  obtain ⟨id, date, ty, cid, amt, note⟩ := t
  cases ty <;> rfl

/-- A todo's four sheet columns survive the append-row / sheetToObjects
round trip (the sheet has no targetDate column). -/
theorem todoOfRow_todoToRow (t : Todo) :
    (todoOfRow (todoToRow t)).id = t.id ∧
    (todoOfRow (todoToRow t)).text = t.text ∧
    (todoOfRow (todoToRow t)).isCompleted = t.isCompleted ∧
    (todoOfRow (todoToRow t)).createdAt = t.createdAt := by
  obtain ⟨id, text, c, ca, td⟩ := t
  cases c <;> exact ⟨rfl, rfl, rfl, rfl⟩

/-! ### Claims -/

/-- C9: in local mode with no stored blob, fetchData succeeds with empty
transactions, empty todos and exactly the six default categories, and
writes that initial dataset to storage, so a later read returns the same
blob. -/
theorem fetchData_empty_storage_initial :
    fetchDataLocal none = (some initialData, ⟨true, some initialData, none⟩) ∧
    initialData = ⟨[], [], DEFAULT_CATEGORIES⟩ ∧
    DEFAULT_CATEGORIES.length = 6 ∧
    fetchDataLocal (some initialData) =
      (some initialData, ⟨true, some initialData, none⟩) :=
  ⟨rfl, rfl, rfl, rfl⟩

/-- C10: in local mode, toggleTodo with an id matching no stored todo
returns success = true and leaves the stored dataset unchanged. -/
theorem toggleTodo_missing_id_noop (d : AppData) (id : String) (b : Bool)
    (h : ∀ t ∈ d.todos, t.id ≠ id) :
    toggleTodoLocal (some d) id b = (some d, ⟨true, none, none⟩) := by
  show (some { d with todos := setCompletedFirst d.todos id b }, _) = _
  rw [setCompletedFirst_of_not_mem d.todos id b h]

/-- Witness for C10 at a concrete dataset and a missing id. -/
theorem toggleTodo_missing_id_noop_witness :
    toggleTodoLocal (some ⟨[], [⟨"1", "buy milk", false, "2024-01-01", none⟩], []⟩)
        "2" true =
      (some ⟨[], [⟨"1", "buy milk", false, "2024-01-01", none⟩], []⟩, ⟨true, none, none⟩) :=
  toggleTodo_missing_id_noop ⟨[], [⟨"1", "buy milk", false, "2024-01-01", none⟩], []⟩
    "2" true (by decide)

/-- C5: toggling a todo twice with the same id and value leaves the store
(local mode) and the Todos sheet (remote endpoint) in the same state as
toggling once, with the same response. -/
theorem toggleTodo_idempotent (d : AppData) (db : GasDb) (id : String) (b : Bool) :
    toggleTodoLocal (toggleTodoLocal (some d) id b).1 id b =
      ((toggleTodoLocal (some d) id b).1, ⟨true, none, none⟩) ∧
    handleRequest (handleRequest db (.toggleTodo id b)).1 (.toggleTodo id b) =
      ((handleRequest db (.toggleTodo id b)).1, ⟨true, none, none⟩) := by
  constructor
  · show (some { d with todos := setCompletedFirst (setCompletedFirst d.todos id b) id b }, _) = _
    rw [setCompletedFirst_idem]
    rfl
  · show ({ db with todoRows := setRowCompletedFirst (setRowCompletedFirst db.todoRows id b) id b }, _) = _
    rw [setRowCompletedFirst_idem]
    rfl

/-- C3: the month summary's balance is the sum of the amounts of income
transactions minus the sum of the amounts of expense transactions, over
exactly the transactions whose date starts with the selected YYYY-MM
prefix. -/
theorem summary_balance_eq (transactions : List Transaction) (selectedMonth : String) :
    (summary transactions selectedMonth).balance =
      ((transactions.filter fun t =>
          t.date.startsWith selectedMonth ∧ t.type = TransactionType.income).map
            fun t => t.amount).sum -
      ((transactions.filter fun t =>
          t.date.startsWith selectedMonth ∧ t.type = TransactionType.expense).map
            fun t => t.amount).sum := by
  have key : ∀ ty : TransactionType,
      (transactions.filter fun t => t.date.startsWith selectedMonth).filter
          (fun t => t.type = ty) =
        transactions.filter fun t => t.date.startsWith selectedMonth ∧ t.type = ty := by
    intro ty
    rw [List.filter_filter]
    apply List.filter_congr
    intro t _
    by_cases h1 : t.type = ty <;> by_cases h2 : t.date.startsWith selectedMonth <;>
      simp [h1, h2]
  unfold summary currentMonthTransactions
  simp only [key, foldl_add_amount, zero_add]

/-- C4: deleting a record removes every record with that id and leaves
every record with a different id unchanged: in local mode the stored lists
become exactly the records whose id differs, and the remote endpoint's
first-match row deletion agrees whenever the sheet's id column has no
duplicates. -/
theorem delete_removes_only_target (d : AppData) (db : GasDb) (id : String) :
    (∀ t : Transaction,
        t ∈ (storedData (deleteTransactionLocal (some d) id).1).transactions ↔
          t ∈ d.transactions ∧ t.id ≠ id) ∧
    (∀ t : Todo,
        t ∈ (storedData (deleteTodoLocal (some d) id).1).todos ↔
          t ∈ d.todos ∧ t.id ≠ id) ∧
    ((db.txRows.map rowId).Nodup →
        (handleRequest db (.deleteTransaction id)).1.txRows =
          db.txRows.filter fun r => rowId r ≠ id) ∧
    ((db.todoRows.map rowId).Nodup →
        (handleRequest db (.deleteTodo id)).1.todoRows =
          db.todoRows.filter fun r => rowId r ≠ id) := by
  refine ⟨?_, ?_, ?_, ?_⟩
  · intro t
    show t ∈ d.transactions.filter (fun t => t.id ≠ id) ↔ _
    simp [List.mem_filter]
  · intro t
    show t ∈ d.todos.filter (fun t => t.id ≠ id) ↔ _
    simp [List.mem_filter]
  · exact fun h => deleteRowFirst_eq_filter db.txRows id h
  · exact fun h => deleteRowFirst_eq_filter db.todoRows id h

/-- Witness for C4: the endpoint's row deletion evaluated on concrete
two-row sheets with distinct ids. -/
theorem delete_removes_only_target_witness :
    (handleRequest
        ⟨[[Cell.str "1", Cell.str "2024-01-02", Cell.str "expense", Cell.str "cat_1",
            Cell.num 50, Cell.str ""],
          [Cell.str "2", Cell.str "2024-01-03", Cell.str "income", Cell.str "cat_2",
            Cell.num 70, Cell.str ""]],
         [[Cell.str "7", Cell.str "a", Cell.boo false, Cell.str "c"],
          [Cell.str "8", Cell.str "b", Cell.boo true, Cell.str "c"]]⟩
        (.deleteTransaction "1")).1.txRows =
      [[Cell.str "2", Cell.str "2024-01-03", Cell.str "income", Cell.str "cat_2",
          Cell.num 70, Cell.str ""]] ∧
    (handleRequest
        ⟨[[Cell.str "1", Cell.str "2024-01-02", Cell.str "expense", Cell.str "cat_1",
            Cell.num 50, Cell.str ""],
          [Cell.str "2", Cell.str "2024-01-03", Cell.str "income", Cell.str "cat_2",
            Cell.num 70, Cell.str ""]],
         [[Cell.str "7", Cell.str "a", Cell.boo false, Cell.str "c"],
          [Cell.str "8", Cell.str "b", Cell.boo true, Cell.str "c"]]⟩
        (.deleteTodo "8")).1.todoRows =
      [[Cell.str "7", Cell.str "a", Cell.boo false, Cell.str "c"]] := by
  have h := delete_removes_only_target ⟨[], [], []⟩
      ⟨[[Cell.str "1", Cell.str "2024-01-02", Cell.str "expense", Cell.str "cat_1",
          Cell.num 50, Cell.str ""],
        [Cell.str "2", Cell.str "2024-01-03", Cell.str "income", Cell.str "cat_2",
          Cell.num 70, Cell.str ""]],
       [[Cell.str "7", Cell.str "a", Cell.boo false, Cell.str "c"],
        [Cell.str "8", Cell.str "b", Cell.boo true, Cell.str "c"]]⟩
  refine ⟨((h "1").2.2.1 (by decide)).trans ?_, ((h "8").2.2.2 (by decide)).trans ?_⟩ <;> rfl

/-- C6: adding a record and then fetching returns a dataset containing it
unchanged: in local mode the very record is in the fetched dataset; on the
remote endpoint the transaction round-trips with every field intact, and
the todo round-trips on the four sheet columns (id, text, isCompleted,
createdAt). -/
theorem add_then_fetch_contains (d : AppData) (db : GasDb) (tx : Transaction) (td : Todo) :
    (∀ s : Option AppData, (fetchDataLocal s).2 = ⟨true, some (storedData s), none⟩) ∧
    tx ∈ (storedData (addTransactionLocal (some d) tx).1).transactions ∧
    td ∈ (storedData (addTodoLocal (some d) td).1).todos ∧
    (handleRequest db .getData).2.data = some (gasGetAllData db) ∧
    tx ∈ (gasGetAllData (handleRequest db (.addTransaction tx)).1).transactions ∧
    todoOfRow (todoToRow td) ∈ (gasGetAllData (handleRequest db (.addTodo td)).1).todos ∧
    (todoOfRow (todoToRow td)).id = td.id ∧
    (todoOfRow (todoToRow td)).text = td.text ∧
    (todoOfRow (todoToRow td)).isCompleted = td.isCompleted ∧
    (todoOfRow (todoToRow td)).createdAt = td.createdAt := by
  obtain ⟨h1, h2, h3, h4⟩ := todoOfRow_todoToRow td
  refine ⟨fun s => rfl, List.mem_cons_self tx d.transactions,
    List.mem_cons_self td d.todos, rfl, ?_, ?_, h1, h2, h3, h4⟩
  · have hmem : txOfRow (txToRow tx) ∈
        ((db.txRows ++ [txToRow tx]).map txOfRow).reverse := by simp
    rw [txOfRow_txToRow] at hmem
    exact hmem
  · show todoOfRow (todoToRow td) ∈ (db.todoRows ++ [todoToRow td]).map todoOfRow
    simp

/-- C7: no operation other than deleteTransaction changes an existing
transaction: in local mode addTransaction keeps every stored transaction
and the other operations leave the transactions list identical; on the
remote endpoint the Transactions sheet keeps its rows (addTransaction only
appends). -/
theorem transactions_frame (d : AppData) (db : GasDb) (tx : Transaction) (td : Todo)
    (id : String) (b : Bool) (cats : List Category) (ts : List Todo)
    (t : Transaction) (ht : t ∈ d.transactions) :
    t ∈ (storedData (addTransactionLocal (some d) tx).1).transactions ∧
    (storedData (addTodoLocal (some d) td).1).transactions = d.transactions ∧
    (storedData (toggleTodoLocal (some d) id b).1).transactions = d.transactions ∧
    (storedData (deleteTodoLocal (some d) id).1).transactions = d.transactions ∧
    (storedData (reorderTodosLocal (some d) ts).1).transactions = d.transactions ∧
    (storedData (saveCategoriesLocal (some d) cats).1).transactions = d.transactions ∧
    (∀ r ∈ db.txRows, r ∈ (handleRequest db (.addTransaction tx)).1.txRows) ∧
    (handleRequest db (.addTodo td)).1.txRows = db.txRows ∧
    (handleRequest db (.toggleTodo id b)).1.txRows = db.txRows ∧
    (handleRequest db (.deleteTodo id)).1.txRows = db.txRows ∧
    (handleRequest db (.reorderTodos ts)).1.txRows = db.txRows :=
  ⟨List.mem_cons_of_mem tx ht, rfl, rfl, rfl, rfl, rfl,
    fun _ hr => List.mem_append_left _ hr, rfl, rfl, rfl, rfl⟩

/-- Witness for C7 on a concrete stored transaction. -/
theorem transactions_frame_witness :
    (⟨"1", "2024-01-02", TransactionType.expense, "cat_1", 50, ""⟩ : Transaction) ∈
      (storedData (addTransactionLocal
          (some ⟨[⟨"1", "2024-01-02", TransactionType.expense, "cat_1", 50, ""⟩], [], []⟩)
          ⟨"2", "2024-01-03", TransactionType.income, "cat_2", 70, ""⟩).1).transactions ∧
    (storedData (toggleTodoLocal
          (some ⟨[⟨"1", "2024-01-02", TransactionType.expense, "cat_1", 50, ""⟩], [], []⟩)
          "9" true).1).transactions =
      [⟨"1", "2024-01-02", TransactionType.expense, "cat_1", 50, ""⟩] := by
  have h := transactions_frame
      ⟨[⟨"1", "2024-01-02", TransactionType.expense, "cat_1", 50, ""⟩], [], []⟩ ⟨[], []⟩
      ⟨"2", "2024-01-03", TransactionType.income, "cat_2", 70, ""⟩
      ⟨"t", "x", false, "c", none⟩ "9" true [] []
      ⟨"1", "2024-01-02", TransactionType.expense, "cat_1", 50, ""⟩
      (List.mem_cons_self _ _)
  exact ⟨h.1, h.2.2.1⟩

/-- C1 counterexample: the endpoint's dispatch has no REORDER_TODOS branch,
so in remote mode a reorder request is answered "Unknown Action" with
success = false and a subsequent fetch does not return the given
sequence (here: the sheet stays empty). -/
theorem reorder_remote_counterexample :
    (handleRequest ⟨[], []⟩
        (.reorderTodos [⟨"1", "buy milk", false, "2024-01-01", none⟩])).2.success = false ∧
    (gasGetAllData (handleRequest ⟨[], []⟩
        (.reorderTodos [⟨"1", "buy milk", false, "2024-01-01", none⟩])).1).todos ≠
      [⟨"1", "buy milk", false, "2024-01-01", none⟩] :=
  ⟨rfl, by decide⟩

/-- C1 amended: in local mode a fetch after reorderTodos returns exactly
the given sequence; in remote mode the endpoint rejects REORDER_TODOS as an
unknown action, returning success = false and leaving the spreadsheet
unchanged. -/
theorem reorder_persists_amended (store : Option AppData) (ts : List Todo) (db : GasDb) :
    (fetchDataLocal (reorderTodosLocal store ts).1).2.success = true ∧
    (∃ dd, (fetchDataLocal (reorderTodosLocal store ts).1).2.data = some dd ∧
      dd.todos = ts) ∧
    handleRequest db (.reorderTodos ts) = (db, ⟨false, none, some "Unknown Action"⟩) :=
  ⟨rfl, ⟨_, rfl, rfl⟩, rfl⟩

/-- C2 counterexample: the remote branch of addTransaction has no
try/catch, so a transport failure escapes as an uncaught exception instead
of yielding a success = false result. -/
theorem mutation_network_failure_throws :
    addTransactionRemote (.netErr "TypeError: Failed to fetch") =
      Except.error "TypeError: Failed to fetch" ∧
    ¬ ∃ resp, addTransactionRemote (.netErr "TypeError: Failed to fetch") =
      Except.ok resp :=
  ⟨rfl, fun h => by obtain ⟨resp, hr⟩ := h; exact Except.noConfusion hr⟩

/-- C2 amended: only fetchData converts a transport failure into a returned
success = false response (with its fixed human-readable message); the five
mutations propagate the failure as an uncaught exception; whenever the
round trip completes, every operation returns the parsed response and
hence its success flag. -/
theorem remote_error_handling_amended (e : String) (jt : ApiResponse Transaction)
    (jtd : ApiResponse Todo) (ju : ApiResponse Unit) :
    fetchDataRemote (.netErr e) = .ok ⟨false, none, some "Failed to fetch from cloud."⟩ ∧
    addTransactionRemote (.netErr e) = .error e ∧
    deleteTransactionRemote (.netErr e) = .error e ∧
    addTodoRemote (.netErr e) = .error e ∧
    toggleTodoRemote (.netErr e) = .error e ∧
    deleteTodoRemote (.netErr e) = .error e ∧
    addTransactionRemote (.ok jt) = .ok jt ∧
    deleteTransactionRemote (.ok ju) = .ok ju ∧
    addTodoRemote (.ok jtd) = .ok jtd ∧
    toggleTodoRemote (.ok ju) = .ok ju ∧
    deleteTodoRemote (.ok ju) = .ok ju :=
  ⟨rfl, rfl, rfl, rfl, rfl, rfl, rfl, rfl, rfl, rfl, rfl⟩

/-- C8 counterexample: a lookup that succeeds with rate 0 is falsy under
the `if (rate)` test, so the original amount 5 is stored even though the
claim demands round(5 * 0) = 0. -/
theorem conversion_zero_rate_counterexample :
    convertedAmount "USD" 5 (some 0) = 5 ∧
    mathRound ((5 : ℚ) * 0) = 0 ∧ (5 : ℚ) ≠ 0 := by
  refine ⟨by decide, ?_, by norm_num⟩
  unfold mathRound
  norm_num

/-- C8 amended: for a foreign-currency entry, a failed lookup (null; the
only failure value, since getExchangeRate catches its own exceptions) and
a zero rate both fall back to the original amount; a nonzero rate stores
the amount times the rate rounded to the nearest integer (halves up, as
Math.round). -/
theorem conversion_fallback_amended (currency : String) (amount r : ℚ)
    (hc : currency ≠ "TWD") :
    convertedAmount currency amount none = amount ∧
    convertedAmount currency amount (some 0) = amount ∧
    (r ≠ 0 → convertedAmount currency amount (some r) = (mathRound (amount * r) : ℚ)) := by
  refine ⟨?_, ?_, fun hr => ?_⟩ <;> simp [convertedAmount, rateTruthy, hc]
  intro h0
  exact absurd h0 hr

/-- Witness for C8 at concrete foreign-currency inputs: a null rate keeps
the amount, a rate of 2 stores the rounded product. -/
theorem conversion_fallback_amended_witness :
    convertedAmount "USD" 5 none = 5 ∧
    convertedAmount "USD" 4 (some 2) = 8 := by
  refine ⟨(conversion_fallback_amended "USD" 5 1 (by decide)).1, ?_⟩
  have h := (conversion_fallback_amended "USD" 4 2 (by decide)).2.2 (by norm_num)
  rw [h]
  unfold mathRound
  norm_num

end Remeber
